import Mathlib

/-!
Verification of the transform-decomposition and mass-properties logic of
the Fusion 360 position/orientation exporter (`src/origin&rpy.py`).

The script's numeric computations are modelled over the real numbers; the
host CAD API objects (`Matrix3D`, occurrences, components, physical
properties) are modelled as structures whose fallible accessors return
`Except String`.  The `%.6f` string formatting is modelled over the
rationals, where it is exact and computable.
-/

open Real

/-- Model of Python `math.atan2 y x`: the argument of the complex number
`x + y * i`, lying in `(-π, π]` (with `atan2 0 0 = 0`, as in Python). -/
noncomputable def atan2 (y x : ℝ) : ℝ := Complex.arg ((x : ℂ) + (y : ℂ) * Complex.I)

/-- A 4x4 homogeneous transformation matrix as the host API presents it:
`asArray` returns the sixteen entries in row-major order. -/
structure Matrix3D where
  asArray : Fin 16 → ℝ

/-- The `translation` property of the host matrix: the translation
components sit at row-major indices 3, 7 and 11. -/
def Matrix3D.translation (t : Matrix3D) : ℝ × ℝ × ℝ :=
  (t.asArray 3, t.asArray 7, t.asArray 11)

/-- The 3x3 rotation sub-matrix of a transform, indexed as the spec writes
`R[i][j]` (row `i`, column `j`, row-major). -/
def rotSub (t : Matrix3D) (i j : Fin 3) : ℝ :=
  t.asArray ⟨4 * i.val + j.val, by have hi := i.isLt; have hj := j.isLt; omega⟩

/-- Shallow embedding of `matrix_to_rpy` (src/origin&rpy.py lines 45-66):
read the flat 4x4 array, take the 3x3 rotation entries, and produce
`(roll, pitch, yaw)` by the three `atan2` formulas. -/
noncomputable def matrix_to_rpy (transform : Matrix3D) : ℝ × ℝ × ℝ :=
  let m := transform.asArray
  let r11 := m 0
  let r21 := m 4
  let r31 := m 8
  let r32 := m 9
  let r33 := m 10
  let roll := atan2 r32 r33
  let pitch := atan2 (-r31) (Real.sqrt (r32 * r32 + r33 * r33))
  let yaw := atan2 r21 r11
  (roll, pitch, yaw)

/-- Physical properties as returned by the host API call
`getPhysicalProperties`: raw centimeter-based values. -/
structure PhysicalProperties where
  mass : ℝ
  volume : ℝ
  centerOfMass : ℝ × ℝ × ℝ
  getXYZMomentsOfInertia : ℝ × ℝ × ℝ
  getXYZProductsOfInertia : ℝ × ℝ × ℝ

/-- A component of the design; `getPhysicalProperties` may fail (modelling
an exception from the CAD API). -/
structure Component where
  name : String
  getPhysicalProperties : Except String PhysicalProperties

/-- An occurrence of a component in the assembly; `transform2` may fail
(modelling an exception when reading the transform). -/
structure Occurrence where
  name : String
  component : Component
  transform2 : Except String Matrix3D

/-- Shallow embedding of `get_component_origin_rpy` (src/origin&rpy.py
lines 26-43): translation scaled by 0.01 (cm to m) followed by the RPY
triple of the rotation part.  An exception while reading the transform
propagates to the caller, modelled by `Except.error`. -/
noncomputable def get_component_origin_rpy (occurrence : Occurrence) :
    Except String (ℝ × ℝ × ℝ × ℝ × ℝ × ℝ) :=
  match occurrence.transform2 with
  | Except.error e => Except.error e
  | Except.ok transform =>
    let translation := transform.translation
    let x := translation.1 * 0.01
    let y := translation.2.1 * 0.01
    let z := translation.2.2 * 0.01
    let rpy := matrix_to_rpy transform
    Except.ok (x, y, z, rpy.1, rpy.2.1, rpy.2.2)

/-- The record returned by `get_mass_properties`. -/
structure MassProps where
  mass : ℝ
  center_of_mass : ℝ × ℝ × ℝ
  inertia_xx : ℝ
  inertia_xy : ℝ
  inertia_xz : ℝ
  inertia_yy : ℝ
  inertia_yz : ℝ
  inertia_zz : ℝ
  volume : ℝ

/-- Shallow embedding of `get_mass_properties` (src/origin&rpy.py lines
68-121): on success, scale the raw centimeter-based values (length x0.01,
volume x1e-6, inertia x1e-4); on an exception from the host, return the
fixed default record. -/
noncomputable def get_mass_properties (occurrence : Occurrence) : MassProps :=
  match occurrence.component.getPhysicalProperties with
  | Except.ok phys_props =>
    { mass := phys_props.mass
      volume := phys_props.volume * 1e-6
      center_of_mass := (phys_props.centerOfMass.1 * 0.01,
        phys_props.centerOfMass.2.1 * 0.01, phys_props.centerOfMass.2.2 * 0.01)
      inertia_xx := phys_props.getXYZMomentsOfInertia.1 * 1e-4
      inertia_yy := phys_props.getXYZMomentsOfInertia.2.1 * 1e-4
      inertia_zz := phys_props.getXYZMomentsOfInertia.2.2 * 1e-4
      inertia_xy := phys_props.getXYZProductsOfInertia.1 * 1e-4
      inertia_xz := phys_props.getXYZProductsOfInertia.2.1 * 1e-4
      inertia_yz := phys_props.getXYZProductsOfInertia.2.2 * 1e-4 }
  | Except.error _ =>
    { mass := 0.1
      center_of_mass := (0, 0, 0)
      inertia_xx := 0.001
      inertia_xy := 0.0
      inertia_xz := 0.0
      inertia_yy := 0.001
      inertia_yz := 0.0
      inertia_zz := 0.001
      volume := 0.001 }

/-- One entry of the per-component dictionary built in
`get_all_component_data`. -/
structure ComponentInfo where
  name : String
  component : String
  x : ℝ
  y : ℝ
  z : ℝ
  roll : ℝ
  pitch : ℝ
  yaw : ℝ
  mass : ℝ
  center_of_mass : ℝ × ℝ × ℝ
  inertia_xx : ℝ
  inertia_xy : ℝ
  inertia_xz : ℝ
  inertia_yy : ℝ
  inertia_yz : ℝ
  inertia_zz : ℝ
  volume : ℝ

/-- Shallow embedding of `get_all_component_data` (src/origin&rpy.py lines
123-160): process the occurrences in order; a failure on the
position/RPY path skips the occurrence and logs a diagnostic (the
source's `print` is modelled as the second component, the log list). -/
noncomputable def get_all_component_data :
    List Occurrence → List ComponentInfo × List String
  | [] => ([], [])
  | occ :: rest =>
    match get_component_origin_rpy occ with
    | Except.ok (x, y, z, roll, pitch, yaw) =>
      let mass_props := get_mass_properties occ
      let component_info : ComponentInfo :=
        { name := occ.name
          component := occ.component.name
          x := x, y := y, z := z
          roll := roll, pitch := pitch, yaw := yaw
          mass := mass_props.mass
          center_of_mass := mass_props.center_of_mass
          inertia_xx := mass_props.inertia_xx
          inertia_xy := mass_props.inertia_xy
          inertia_xz := mass_props.inertia_xz
          inertia_yy := mass_props.inertia_yy
          inertia_yz := mass_props.inertia_yz
          inertia_zz := mass_props.inertia_zz
          volume := mass_props.volume }
      let r := get_all_component_data rest
      (component_info :: r.1, r.2)
    | Except.error e =>
      let r := get_all_component_data rest
      (r.1, ("Error processing " ++ occ.name ++ ": " ++ e) :: r.2)

/-- Modelled from the spec: entry `i` (row-major, 4x4 homogeneous) of the
rotation matrix built from `(roll, pitch, yaw)` by the XYZ convention,
applied order `Rz(yaw) * Ry(pitch) * Rx(roll)`, zero translation. -/
noncomputable def rpyEntry (roll pitch yaw : ℝ) : ℕ → ℝ
  | 0 => Real.cos yaw * Real.cos pitch
  | 1 => Real.cos yaw * Real.sin pitch * Real.sin roll - Real.sin yaw * Real.cos roll
  | 2 => Real.cos yaw * Real.sin pitch * Real.cos roll + Real.sin yaw * Real.sin roll
  | 4 => Real.sin yaw * Real.cos pitch
  | 5 => Real.sin yaw * Real.sin pitch * Real.sin roll + Real.cos yaw * Real.cos roll
  | 6 => Real.sin yaw * Real.sin pitch * Real.cos roll - Real.cos yaw * Real.sin roll
  | 8 => -Real.sin pitch
  | 9 => Real.cos pitch * Real.sin roll
  | 10 => Real.cos pitch * Real.cos roll
  | 15 => 1
  | _ => 0

/-- Modelled from the spec: the homogeneous matrix whose rotation part is
built from `(roll, pitch, yaw)` by the XYZ convention. -/
noncomputable def rpy_to_matrix (roll pitch yaw : ℝ) : Matrix3D :=
  ⟨fun i => rpyEntry roll pitch yaw i.val⟩

/-- Entry `i` of the 4x4 identity matrix in row-major order. -/
noncomputable def identityEntry : ℕ → ℝ
  | 0 => 1
  | 5 => 1
  | 10 => 1
  | 15 => 1
  | _ => 0

/-- The 4x4 identity transform. -/
noncomputable def identityMatrix : Matrix3D := ⟨fun i => identityEntry i.val⟩

/-- Entry `i` of a translation-only transform with `t = (100, 200, 300)`
(centimeters), identity rotation. -/
noncomputable def matTEntry : ℕ → ℝ
  | 0 => 1
  | 5 => 1
  | 10 => 1
  | 15 => 1
  | 3 => 100
  | 7 => 200
  | 11 => 300
  | _ => 0

/-- A translation-only transform with `t = (100, 200, 300)` cm. -/
noncomputable def matT : Matrix3D := ⟨fun i => matTEntry i.val⟩

/-- A component whose physical-properties call fails. -/
noncomputable def compE : Component := ⟨"broken", Except.error "api failure"⟩

/-- An occurrence carrying the translation-only transform `matT`. -/
noncomputable def occT : Occurrence := ⟨"comp1", compE, Except.ok matT⟩

/-- Concrete raw physical properties: moments `(10000, 20000, 30000)`
kg*cm^2 and volume `1e6` cm^3. -/
noncomputable def physP : PhysicalProperties :=
  { mass := 2
    volume := 1000000
    centerOfMass := (50, 0, 0)
    getXYZMomentsOfInertia := (10000, 20000, 30000)
    getXYZProductsOfInertia := (0, 0, 0) }

/-- A component whose physical-properties call succeeds with `physP`. -/
noncomputable def compP : Component := ⟨"body", Except.ok physP⟩

/-- An occurrence of `compP`. -/
noncomputable def occP : Occurrence := ⟨"occP", compP, Except.ok identityMatrix⟩

/-- An occurrence whose physical-properties call fails. -/
noncomputable def occE : Occurrence := ⟨"occE", compE, Except.ok identityMatrix⟩

/-- An occurrence whose transform cannot be read at all. -/
noncomputable def occBad : Occurrence := ⟨"bad", compE, Except.error "no transform"⟩

/-- Modelled from the spec: left-pad the decimal digits of `n` with zeros
to width six (the fractional part of `%.6f`). -/
def pad6 (n : ℕ) : String :=
  String.mk (List.replicate (6 - (Nat.repr n).length) '0') ++ Nat.repr n

/-- Modelled from the spec: Python `%.6f` fixed-point formatting, over
exact rationals (round to the nearest multiple of `1e-6`, then print with
six digits after the decimal point). -/
def format6f (x : ℚ) : String :=
  let n : ℤ := round (x * 1000000)
  let sign := if n < 0 then "-" else ""
  let a := n.natAbs
  sign ++ Nat.repr (a / 1000000) ++ "." ++ pad6 (a % 1000000)

/-- The URDF `xyz` attribute string built at src/origin&rpy.py line 186
(and, for the center of mass, line 218): the three position fields joined
by single spaces, each `%.6f`. -/
def urdf_xyz (x y z : ℚ) : String :=
  format6f x ++ " " ++ format6f y ++ " " ++ format6f z

/-- The URDF `rpy` attribute string built at src/origin&rpy.py line 187:
the three angle fields joined by single spaces, each `%.6f`. -/
def urdf_rpy (r p yw : ℚ) : String :=
  format6f r ++ " " ++ format6f p ++ " " ++ format6f yw

/-- The numeric fields of one component as they reach the rendering code
of `display_results`, modelled as exact rationals. -/
structure ComponentInfoQ where
  name : String
  component : String
  x : ℚ
  y : ℚ
  z : ℚ
  roll : ℚ
  pitch : ℚ
  yaw : ℚ
  mass : ℚ
  com_x : ℚ
  com_y : ℚ
  com_z : ℚ
  inertia_xx : ℚ
  inertia_xy : ℚ
  inertia_xz : ℚ
  inertia_yy : ℚ
  inertia_yz : ℚ
  inertia_zz : ℚ

/-- The per-component text block built by `display_results`
(src/origin&rpy.py lines 176-188): every numeric field is interpolated
with `:.6f`, modelled by `format6f`. -/
def display_component_block (comp : ComponentInfoQ) : String :=
  "Component: " ++ comp.name ++ "\n" ++
  "Base: " ++ comp.component ++ "\n" ++
  "Position: (" ++ format6f comp.x ++ ", " ++ format6f comp.y ++ ", " ++
    format6f comp.z ++ ") m\n" ++
  "RPY: (" ++ format6f comp.roll ++ ", " ++ format6f comp.pitch ++ ", " ++
    format6f comp.yaw ++ ") rad\n" ++
  "Mass: " ++ format6f comp.mass ++ " kg\n" ++
  "Center of Mass: (" ++ format6f comp.com_x ++ ", " ++ format6f comp.com_y ++ ", " ++
    format6f comp.com_z ++ ") m\n" ++
  "Inertia: Ixx=" ++ format6f comp.inertia_xx ++ ", Iyy=" ++ format6f comp.inertia_yy ++
    ", Izz=" ++ format6f comp.inertia_zz ++ " kg·m²\n" ++
  "URDF Origin: <origin xyz=\"" ++ urdf_xyz comp.x comp.y comp.z ++ "\" rpy=\"" ++
    urdf_rpy comp.roll comp.pitch comp.yaw ++ "\"/>\n\n"

/-- The `<inertial>` fragment printed to the text-commands window
(src/origin&rpy.py lines 224-228, with the center-of-mass string of
line 218 inlined): mass, center of mass and all six inertia attributes
are interpolated with `:.6f`, modelled by `format6f`. -/
def urdf_inertial_block (comp : ComponentInfoQ) : String :=
  "  <inertial>\n" ++
  "    <origin xyz=\"" ++ format6f comp.com_x ++ " " ++ format6f comp.com_y ++ " " ++
    format6f comp.com_z ++ "\" rpy=\"0 0 0\"/>\n" ++
  "    <mass value=\"" ++ format6f comp.mass ++ "\"/>\n" ++
  "    <inertia ixx=\"" ++ format6f comp.inertia_xx ++ "\" ixy=\"" ++ format6f comp.inertia_xy ++
    "\" ixz=\"" ++ format6f comp.inertia_xz ++ "\" iyy=\"" ++ format6f comp.inertia_yy ++
    "\" iyz=\"" ++ format6f comp.inertia_yz ++ "\" izz=\"" ++ format6f comp.inertia_zz ++
    "\"/>\n" ++
  "  </inertial>\n"

/-- `Occurs u s` holds when the string `u` appears contiguously inside the
string `s`. -/
def Occurs (u s : String) : Prop := ∃ a b, s = a ++ u ++ b

attribute [irreducible] format6f

/-! ### Helper lemmas about `atan2` -/

/-- `atan2 0 1 = 0`. -/
theorem atan2_zero_one : atan2 0 1 = 0 := by
  simp [atan2, Complex.arg_one]

/-- `atan2` recovers an angle from its sine and cosine on `(-π, π]`. -/
theorem atan2_sin_cos (θ : ℝ) (h1 : -π < θ) (h2 : θ ≤ π) :
    atan2 (Real.sin θ) (Real.cos θ) = θ := by
  unfold atan2
  rw [Complex.ofReal_cos, Complex.ofReal_sin]
  exact Complex.arg_cos_add_sin_mul_I ⟨h1, h2⟩

/-- `atan2` recovers an angle from a positively scaled sine/cosine pair. -/
theorem atan2_mul_sin_cos (θ c : ℝ) (hc : 0 < c) (h1 : -π < θ) (h2 : θ ≤ π) :
    atan2 (c * Real.sin θ) (c * Real.cos θ) = θ := by
  unfold atan2
  have h : ((c * Real.cos θ : ℝ) : ℂ) + ((c * Real.sin θ : ℝ) : ℂ) * Complex.I
      = (c : ℂ) * ((Real.cos θ : ℝ) + ((Real.sin θ : ℝ) : ℂ) * Complex.I) := by
    push_cast
    ring
  rw [h, Complex.arg_real_mul _ hc, Complex.ofReal_cos, Complex.ofReal_sin]
  exact Complex.arg_cos_add_sin_mul_I ⟨h1, h2⟩

/-- If the second argument of `atan2` is non-negative, the result lies in
the closed interval `[-π/2, π/2]`. -/
theorem atan2_range_of_nonneg (y x : ℝ) (hx : 0 ≤ x) :
    -(π / 2) ≤ atan2 y x ∧ atan2 y x ≤ π / 2 := by
  unfold atan2
  constructor
  · apply Complex.neg_pi_div_two_le_arg_iff.mpr
    left
    simpa using hx
  · apply Complex.arg_le_pi_div_two_iff.mpr
    left
    simpa using hx

/-! ### Claim theorems -/

/-- C1: for every transform (so in particular every transform whose 3x3
rotation sub-matrix is a proper rotation, and with no special-casing at
gimbal lock), `matrix_to_rpy` returns
`roll = atan2(R[2][1], R[2][2])`,
`pitch = atan2(-R[2][0], sqrt(R[2][1]^2 + R[2][2]^2))` and
`yaw = atan2(R[1][0], R[0][0])`. -/
theorem c1_decomposition_formulas (t : Matrix3D) :
    matrix_to_rpy t =
      (atan2 (rotSub t 2 1) (rotSub t 2 2),
       atan2 (-(rotSub t 2 0)) (Real.sqrt (rotSub t 2 1 ^ 2 + rotSub t 2 2 ^ 2)),
       atan2 (rotSub t 1 0) (rotSub t 0 0)) := by
  have h21 : rotSub t 2 1 = t.asArray 9 := rfl
  have h22 : rotSub t 2 2 = t.asArray 10 := rfl
  have h20 : rotSub t 2 0 = t.asArray 8 := rfl
  have h10 : rotSub t 1 0 = t.asArray 4 := rfl
  have h00 : rotSub t 0 0 = t.asArray 0 := rfl
  rw [h21, h22, h20, h10, h00, pow_two, pow_two]
  rfl

/-- C7: decomposing the identity rotation matrix yields
`roll = pitch = yaw = 0`. -/
theorem c7_identity_decomposes_to_zero : matrix_to_rpy identityMatrix = (0, 0, 0) := by
  have h : matrix_to_rpy identityMatrix
      = (atan2 0 1, atan2 (-(0 : ℝ)) (Real.sqrt (0 * 0 + 1 * 1)), atan2 0 1) := rfl
  rw [h]
  norm_num [atan2_zero_one, Real.sqrt_one]

/-- C9: for every input matrix, the pitch returned by `matrix_to_rpy`
lies in `[-π/2, π/2]`, because the second `atan2` argument is a square
root and hence non-negative. -/
theorem c9_pitch_range (t : Matrix3D) :
    -(π / 2) ≤ (matrix_to_rpy t).2.1 ∧ (matrix_to_rpy t).2.1 ≤ π / 2 := by
  have h : (matrix_to_rpy t).2.1
      = atan2 (-(t.asArray 8))
          (Real.sqrt (t.asArray 9 * t.asArray 9 + t.asArray 10 * t.asArray 10)) := rfl
  rw [h]
  exact atan2_range_of_nonneg _ _ (Real.sqrt_nonneg _)

/-- C3: whenever the transform is readable, the output position is the
translation vector scaled component-wise by 0.01 (cm to m). -/
theorem c3_position_scaled (occ : Occurrence) (m : Matrix3D)
    (h : occ.transform2 = Except.ok m) :
    get_component_origin_rpy occ =
      Except.ok (m.translation.1 * 0.01, m.translation.2.1 * 0.01,
        m.translation.2.2 * 0.01, (matrix_to_rpy m).1, (matrix_to_rpy m).2.1,
        (matrix_to_rpy m).2.2) := by
  unfold get_component_origin_rpy
  rw [h]

/-- C3 witness: the translation-only transform with `t = (100, 200, 300)`
cm yields position `(1, 2, 3)` m. -/
theorem c3_witness :
    get_component_origin_rpy occT =
      Except.ok ((1 : ℝ), (2 : ℝ), (3 : ℝ), (matrix_to_rpy matT).1,
        (matrix_to_rpy matT).2.1, (matrix_to_rpy matT).2.2) := by
  have h := c3_position_scaled occT matT rfl
  have ht : matT.translation = ((100 : ℝ), (200 : ℝ), (300 : ℝ)) := rfl
  rw [h, ht]
  norm_num

/-- C4: on a successful physical-properties call, every raw
centimeter-based quantity is scaled by its fixed factor: center of mass
by 0.01, volume by 1e-6, each moment and product of inertia by 1e-4, and
the mass is passed through unchanged (kg). -/
theorem c4_mass_conversion_factors (occ : Occurrence) (p : PhysicalProperties)
    (h : occ.component.getPhysicalProperties = Except.ok p) :
    (get_mass_properties occ).mass = p.mass ∧
    (get_mass_properties occ).center_of_mass =
      (p.centerOfMass.1 * 0.01, p.centerOfMass.2.1 * 0.01, p.centerOfMass.2.2 * 0.01) ∧
    (get_mass_properties occ).volume = p.volume * 1e-6 ∧
    (get_mass_properties occ).inertia_xx = p.getXYZMomentsOfInertia.1 * 1e-4 ∧
    (get_mass_properties occ).inertia_yy = p.getXYZMomentsOfInertia.2.1 * 1e-4 ∧
    (get_mass_properties occ).inertia_zz = p.getXYZMomentsOfInertia.2.2 * 1e-4 ∧
    (get_mass_properties occ).inertia_xy = p.getXYZProductsOfInertia.1 * 1e-4 ∧
    (get_mass_properties occ).inertia_xz = p.getXYZProductsOfInertia.2.1 * 1e-4 ∧
    (get_mass_properties occ).inertia_yz = p.getXYZProductsOfInertia.2.2 * 1e-4 := by
  unfold get_mass_properties
  rw [h]
  exact ⟨rfl, rfl, rfl, rfl, rfl, rfl, rfl, rfl, rfl⟩

/-- C4 witness: raw moment of inertia 10000 kg*cm^2 converts to 1 kg*m^2
and raw volume 1e6 cm^3 converts to 1 m^3. -/
theorem c4_witness :
    (get_mass_properties occP).inertia_xx = 1 ∧ (get_mass_properties occP).volume = 1 := by
  have h := c4_mass_conversion_factors occP physP rfl
  constructor
  · rw [h.2.2.2.1]
    show (10000 : ℝ) * 1e-4 = 1
    norm_num
  · rw [h.2.2.1]
    show (1000000 : ℝ) * 1e-6 = 1
    norm_num

/-- C5: when the physical-properties call fails, the returned record is
the documented default: mass 0.1 kg, diagonal inertia 0.001 kg*m^2,
zero off-diagonal inertia, center of mass at the origin. -/
theorem c5_default_mass_record (occ : Occurrence) (e : String)
    (h : occ.component.getPhysicalProperties = Except.error e) :
    (get_mass_properties occ).mass = 0.1 ∧
    (get_mass_properties occ).inertia_xx = 0.001 ∧
    (get_mass_properties occ).inertia_yy = 0.001 ∧
    (get_mass_properties occ).inertia_zz = 0.001 ∧
    (get_mass_properties occ).inertia_xy = 0 ∧
    (get_mass_properties occ).inertia_xz = 0 ∧
    (get_mass_properties occ).inertia_yz = 0 ∧
    (get_mass_properties occ).center_of_mass = (0, 0, 0) := by
  unfold get_mass_properties
  rw [h]
  norm_num

/-- C5 witness: the default record on a concrete failing occurrence. -/
theorem c5_witness :
    (get_mass_properties occE).mass = 0.1 ∧
    (get_mass_properties occE).center_of_mass = (0, 0, 0) :=
  ⟨(c5_default_mass_record occE "api failure" rfl).1,
   (c5_default_mass_record occE "api failure" rfl).2.2.2.2.2.2.2⟩

/-- C10: the default record substituted on a physical-properties failure
also sets `volume = 0.001` (m^3), beyond the fields the spec lists. -/
theorem c10_default_volume (occ : Occurrence) (e : String)
    (h : occ.component.getPhysicalProperties = Except.error e) :
    (get_mass_properties occ).volume = 0.001 := by
  unfold get_mass_properties
  rw [h]

/-- C10 witness: the default volume on a concrete failing occurrence. -/
theorem c10_witness : (get_mass_properties occE).volume = 0.001 :=
  c10_default_volume occE "api failure" rfl

/-- C6: a failure on the position/RPY path for one occurrence does not
abort the batch: that occurrence contributes no entry to the result list
(the data of the remaining occurrences is exactly that of the batch
without it), and a diagnostic naming it is logged. -/
theorem c6_skip_and_continue (pre post : List Occurrence) (occ : Occurrence)
    (e : String) (h : get_component_origin_rpy occ = Except.error e) :
    (get_all_component_data (pre ++ occ :: post)).1 =
      (get_all_component_data (pre ++ post)).1 ∧
    ("Error processing " ++ occ.name ++ ": " ++ e) ∈
      (get_all_component_data (pre ++ occ :: post)).2 := by
  induction pre with
  | nil =>
    simp [List.nil_append, get_all_component_data, h]
  | cons a as ih =>
    simp only [List.cons_append]
    cases ha : get_component_origin_rpy a with
    | ok v =>
      obtain ⟨x, y, z, roll, pitch, yaw⟩ := v
      simp only [get_all_component_data, ha]
      exact ⟨congrArg _ ih.1, ih.2⟩
    | error err =>
      simp only [get_all_component_data, ha]
      exact ⟨ih.1, List.mem_cons_of_mem _ ih.2⟩

/-- C6 witness: a batch consisting of one unreadable occurrence yields the
same (empty) data list as the empty batch, and logs the diagnostic. -/
theorem c6_witness :
    (get_all_component_data [occBad]).1 = (get_all_component_data []).1 ∧
    ("Error processing " ++ occBad.name ++ ": " ++ "no transform") ∈
      (get_all_component_data [occBad]).2 :=
  c6_skip_and_continue [] [] occBad "no transform" rfl

/-- C2 (amended): for `roll, yaw` in `(-π, π]` and `pitch` in
`(-π/2, π/2)`, building the rotation matrix by the XYZ convention
(applied order `Rz * Ry * Rx`) and decomposing it returns the original
angles exactly (hence within 1e-6). -/
theorem c2_roundtrip_amended (r p y : ℝ) (hr1 : -π < r) (hr2 : r ≤ π)
    (hp1 : -(π / 2) < p) (hp2 : p < π / 2) (hy1 : -π < y) (hy2 : y ≤ π) :
    matrix_to_rpy (rpy_to_matrix r p y) = (r, p, y) := by
  have hcp : 0 < Real.cos p := Real.cos_pos_of_mem_Ioo ⟨hp1, hp2⟩
  have e0 : (rpy_to_matrix r p y).asArray 0 = Real.cos y * Real.cos p := rfl
  have e4 : (rpy_to_matrix r p y).asArray 4 = Real.sin y * Real.cos p := rfl
  have e8 : (rpy_to_matrix r p y).asArray 8 = -Real.sin p := rfl
  have e9 : (rpy_to_matrix r p y).asArray 9 = Real.cos p * Real.sin r := rfl
  have e10 : (rpy_to_matrix r p y).asArray 10 = Real.cos p * Real.cos r := rfl
  have hm : matrix_to_rpy (rpy_to_matrix r p y) =
      (atan2 ((rpy_to_matrix r p y).asArray 9) ((rpy_to_matrix r p y).asArray 10),
       atan2 (-(rpy_to_matrix r p y).asArray 8)
         (Real.sqrt ((rpy_to_matrix r p y).asArray 9 * (rpy_to_matrix r p y).asArray 9 +
           (rpy_to_matrix r p y).asArray 10 * (rpy_to_matrix r p y).asArray 10)),
       atan2 ((rpy_to_matrix r p y).asArray 4) ((rpy_to_matrix r p y).asArray 0)) := rfl
  rw [hm, e0, e4, e8, e9, e10]
  have hsq : Real.cos p * Real.sin r * (Real.cos p * Real.sin r) +
      Real.cos p * Real.cos r * (Real.cos p * Real.cos r) = Real.cos p ^ 2 := by
    linear_combination (Real.cos p ^ 2) * Real.sin_sq_add_cos_sq r
  rw [neg_neg, hsq, Real.sqrt_sq hcp.le]
  have h1 : atan2 (Real.cos p * Real.sin r) (Real.cos p * Real.cos r) = r :=
    atan2_mul_sin_cos r (Real.cos p) hcp hr1 hr2
  have h2 : atan2 (Real.sin p) (Real.cos p) = p := by
    have hπ := Real.pi_pos
    exact atan2_sin_cos p (by linarith) (by linarith)
  have h3 : atan2 (Real.sin y * Real.cos p) (Real.cos y * Real.cos p) = y := by
    rw [mul_comm (Real.sin y), mul_comm (Real.cos y)]
    exact atan2_mul_sin_cos y (Real.cos p) hcp hy1 hy2
  rw [h1, h2, h3]

/-- C2 witness: the amended round-trip at `(0, 0, 0)`. -/
theorem c2_witness : matrix_to_rpy (rpy_to_matrix 0 0 0) = (0, 0, 0) := by
  have hπ := Real.pi_pos
  exact c2_roundtrip_amended 0 0 0 (by linarith) (by linarith) (by linarith)
    (by linarith) (by linarith) (by linarith)

/-- C2 counterexample: the claim quantifies over every `(roll, pitch, yaw)`
triple, but at `(2π, 0, 0)` — whose pitch 0 is nowhere near ±π/2 — the
built matrix decomposes to roll 0, which differs from the original roll
`2π` by far more than 1e-6. -/
theorem c2_counterexample :
    (matrix_to_rpy (rpy_to_matrix (2 * π) 0 0)).1 = 0 ∧
    1e-6 < |2 * π - (matrix_to_rpy (rpy_to_matrix (2 * π) 0 0)).1| := by
  have e9 : (rpy_to_matrix (2 * π) 0 0).asArray 9 = Real.cos 0 * Real.sin (2 * π) := rfl
  have e10 : (rpy_to_matrix (2 * π) 0 0).asArray 10 = Real.cos 0 * Real.cos (2 * π) := rfl
  have hroll : (matrix_to_rpy (rpy_to_matrix (2 * π) 0 0)).1
      = atan2 ((rpy_to_matrix (2 * π) 0 0).asArray 9)
          ((rpy_to_matrix (2 * π) 0 0).asArray 10) := rfl
  have h0 : (matrix_to_rpy (rpy_to_matrix (2 * π) 0 0)).1 = 0 := by
    rw [hroll, e9, e10, Real.cos_zero, Real.sin_two_pi, Real.cos_two_pi]
    norm_num [atan2_zero_one]
  refine ⟨h0, ?_⟩
  rw [h0, sub_zero]
  have hπ := Real.pi_gt_three
  rw [abs_of_pos (by linarith)]
  have hsmall : (1e-6 : ℝ) < 3 := by norm_num
  linarith

/-- A string occurs in itself. -/
theorem occurs_self (u : String) : Occurs u u :=
  ⟨"", "", by rw [String.append_empty, String.empty_append]⟩

/-- A string occurs at the end of any extension to its left. -/
theorem occurs_last (a u : String) : Occurs u (a ++ u) :=
  ⟨a, "", by rw [String.append_empty]⟩

/-- Occurrence is preserved by appending on the right. -/
theorem occurs_extend {u s : String} (t : String) (h : Occurs u s) :
    Occurs u (s ++ t) := by
  obtain ⟨a, b, rfl⟩ := h
  exact ⟨a, b ++ t, by simp [String.append_assoc]⟩

/-- C8: every numeric field of the output is rendered with `%.6f`
(modelled by `format6f`): each of the thirteen fields of the message
block, each of the ten fields of the `<inertial>` fragment, and each
field of the URDF `xyz` and `rpy` attribute strings appears in the
rendered text as its `format6f` image; and `format6f` is genuine `%.6f`
formatting — the position `(1.234567, 0, -0.000001)` renders as the
string "1.234567 0.000000 -0.000001". -/
theorem c8_every_numeric_field_format6f :
    (∀ comp : ComponentInfoQ,
      Occurs (format6f comp.x) (display_component_block comp) ∧
      Occurs (format6f comp.y) (display_component_block comp) ∧
      Occurs (format6f comp.z) (display_component_block comp) ∧
      Occurs (format6f comp.roll) (display_component_block comp) ∧
      Occurs (format6f comp.pitch) (display_component_block comp) ∧
      Occurs (format6f comp.yaw) (display_component_block comp) ∧
      Occurs (format6f comp.mass) (display_component_block comp) ∧
      Occurs (format6f comp.com_x) (display_component_block comp) ∧
      Occurs (format6f comp.com_y) (display_component_block comp) ∧
      Occurs (format6f comp.com_z) (display_component_block comp) ∧
      Occurs (format6f comp.inertia_xx) (display_component_block comp) ∧
      Occurs (format6f comp.inertia_yy) (display_component_block comp) ∧
      Occurs (format6f comp.inertia_zz) (display_component_block comp)) ∧
    (∀ comp : ComponentInfoQ,
      Occurs (format6f comp.com_x) (urdf_inertial_block comp) ∧
      Occurs (format6f comp.com_y) (urdf_inertial_block comp) ∧
      Occurs (format6f comp.com_z) (urdf_inertial_block comp) ∧
      Occurs (format6f comp.mass) (urdf_inertial_block comp) ∧
      Occurs (format6f comp.inertia_xx) (urdf_inertial_block comp) ∧
      Occurs (format6f comp.inertia_xy) (urdf_inertial_block comp) ∧
      Occurs (format6f comp.inertia_xz) (urdf_inertial_block comp) ∧
      Occurs (format6f comp.inertia_yy) (urdf_inertial_block comp) ∧
      Occurs (format6f comp.inertia_yz) (urdf_inertial_block comp) ∧
      Occurs (format6f comp.inertia_zz) (urdf_inertial_block comp)) ∧
    (∀ x y z : ℚ,
      Occurs (format6f x) (urdf_xyz x y z) ∧
      Occurs (format6f y) (urdf_xyz x y z) ∧
      Occurs (format6f z) (urdf_xyz x y z)) ∧
    (∀ r p yw : ℚ,
      Occurs (format6f r) (urdf_rpy r p yw) ∧
      Occurs (format6f p) (urdf_rpy r p yw) ∧
      Occurs (format6f yw) (urdf_rpy r p yw)) ∧
    urdf_xyz (1.234567 : ℚ) 0 (-0.000001) = "1.234567 0.000000 -0.000001" := by
  refine ⟨fun comp => ?_, fun comp => ?_, fun x y z => ?_, fun r p yw => ?_, ?_⟩
  · simp only [display_component_block]
    refine ⟨?_, ?_, ?_, ?_, ?_, ?_, ?_, ?_, ?_, ?_, ?_, ?_, ?_⟩
    · iterate 34 (apply occurs_extend)
      exact occurs_last _ _
    · iterate 32 (apply occurs_extend)
      exact occurs_last _ _
    · iterate 30 (apply occurs_extend)
      exact occurs_last _ _
    · iterate 27 (apply occurs_extend)
      exact occurs_last _ _
    · iterate 25 (apply occurs_extend)
      exact occurs_last _ _
    · iterate 23 (apply occurs_extend)
      exact occurs_last _ _
    · iterate 20 (apply occurs_extend)
      exact occurs_last _ _
    · iterate 17 (apply occurs_extend)
      exact occurs_last _ _
    · iterate 15 (apply occurs_extend)
      exact occurs_last _ _
    · iterate 13 (apply occurs_extend)
      exact occurs_last _ _
    · iterate 10 (apply occurs_extend)
      exact occurs_last _ _
    · iterate 8 (apply occurs_extend)
      exact occurs_last _ _
    · iterate 6 (apply occurs_extend)
      exact occurs_last _ _
  · simp only [urdf_inertial_block]
    refine ⟨?_, ?_, ?_, ?_, ?_, ?_, ?_, ?_, ?_, ?_⟩
    · iterate 22 (apply occurs_extend)
      exact occurs_last _ _
    · iterate 20 (apply occurs_extend)
      exact occurs_last _ _
    · iterate 18 (apply occurs_extend)
      exact occurs_last _ _
    · iterate 15 (apply occurs_extend)
      exact occurs_last _ _
    · iterate 12 (apply occurs_extend)
      exact occurs_last _ _
    · iterate 10 (apply occurs_extend)
      exact occurs_last _ _
    · iterate 8 (apply occurs_extend)
      exact occurs_last _ _
    · iterate 6 (apply occurs_extend)
      exact occurs_last _ _
    · iterate 4 (apply occurs_extend)
      exact occurs_last _ _
    · iterate 2 (apply occurs_extend)
      exact occurs_last _ _
  · simp only [urdf_xyz]
    refine ⟨?_, ?_, ?_⟩
    · iterate 4 (apply occurs_extend)
      exact occurs_self _
    · iterate 2 (apply occurs_extend)
      exact occurs_last _ _
    · exact occurs_last _ _
  · simp only [urdf_rpy]
    refine ⟨?_, ?_, ?_⟩
    · iterate 4 (apply occurs_extend)
      exact occurs_self _
    · iterate 2 (apply occurs_extend)
      exact occurs_last _ _
    · exact occurs_last _ _
  · have h1 : round ((1.234567 : ℚ) * 1000000) = 1234567 := by
      rw [round_eq]
      norm_num
    have h2 : round ((0 : ℚ) * 1000000) = 0 := by
      rw [round_eq]
      norm_num
    have h3 : round ((-0.000001 : ℚ) * 1000000) = -1 := by
      rw [round_eq]
      norm_num
    simp only [urdf_xyz, format6f, h1, h2, h3]
    decide
